import Mathlib

/-!
# Verification of the flight-delay synthetic data generator

Shallow embedding of `src/tools/flight_data_generator.py` (the core selected
by the specification).  Conventions of the embedding:

* Python floats are modelled as exact rationals (`ℚ`); the one place the code
  leaves rational arithmetic — `math.sqrt` inside the delay model — is
  modelled over `ℝ` with `Real.sqrt`.
* All randomness of Python's process-wide `random` module is made an explicit
  input: a `RandState` carrying three streams of primitive draws together
  with read positions.  `random.randint` / `random.choice` consume from the
  `nats` stream, `random.random` consumes from the `unifs` stream (its values
  are meant to lie in `[0,1)`), and `random.expovariate lambd` is modelled as
  `e / lambd` where `e` is drawn from the `exps` stream of standard
  (mean-one) exponential samples — the scaling property of the exponential
  distribution makes `e / lambd` a draw with mean `1 / lambd`.
* `datetime.datetime` values are modelled as a day index (days since an
  epoch Monday, so Python's `weekday()` is `day % 7`) plus a minute offset
  within the day; `timedelta` addition adds to the minute offset, which keeps
  all the arithmetic relations of the source intact.
* Python exceptions (the divide-by-zero-class failures of the weighted
  sampler) are modelled by `Option`: `none` is a raised exception.
-/

/-- Explicit pseudorandom-generator state: streams of primitive draws plus
read positions, replacing Python's process-wide `random` state. -/
structure RandState where
  nats : Nat → Nat
  unifs : Nat → ℚ
  exps : Nat → ℚ
  nIdx : Nat
  uIdx : Nat
  eIdx : Nat

/-- Draw one raw natural number (drives `random.randint` and `random.choice`). -/
def nextNat (s : RandState) : Nat × RandState :=
  (s.nats s.nIdx, { s with nIdx := s.nIdx + 1 })

/-- Draw one uniform sample in `[0,1)` (Python's `random.random()`). -/
def nextUnif (s : RandState) : ℚ × RandState :=
  (s.unifs s.uIdx, { s with uIdx := s.uIdx + 1 })

/-- Draw one standard (mean-one) exponential sample. -/
def nextExp (s : RandState) : ℚ × RandState :=
  (s.exps s.eIdx, { s with eIdx := s.eIdx + 1 })

/-- Python `random.randint(a, b)`: uniform integer in `[a, b]` (both ends
included), modelled by reducing a raw draw modulo the range size. -/
def py_randint (a b : Nat) (s : RandState) : Nat × RandState :=
  (a + (nextNat s).1 % (b - a + 1), (nextNat s).2)

/-- Python `random.choice(l)`: uniform element of a non-empty list, modelled
by indexing with a raw draw modulo the length (`dflt` is returned only on the
empty list, where Python would raise). -/
def py_choice {α : Type} (l : List α) (dflt : α) (s : RandState) : α × RandState :=
  (l.getD ((nextNat s).1 % l.length) dflt, (nextNat s).2)

/-- Python `random.expovariate(lambd)`: an exponential draw with mean
`1 / lambd`, modelled as a standard exponential sample scaled by `1 / lambd`. -/
noncomputable def py_expovariate (lambd : ℝ) (s : RandState) : ℝ × RandState :=
  (((nextExp s).1 : ℝ) / lambd, (nextExp s).2)

/-- Static airline catalog entry. -/
structure Airline where
  code : String
  name : String
  delay_factor : ℚ

/-- Static airport catalog entry. -/
structure Airport where
  code : String
  name : String
  congestion_factor : ℚ

/-- Static weather-condition catalog entry. -/
structure WeatherCond where
  condition : String
  probability : ℚ
  delay_factor : ℚ

/-- The `AIRLINES` reference table of the source. -/
def AIRLINES : List Airline :=
  [⟨"BA", "British Airways", 0.8⟩,
   ⟨"LH", "Lufthansa", 0.7⟩,
   ⟨"AF", "Air France", 0.85⟩,
   ⟨"DL", "Delta", 0.75⟩,
   ⟨"UA", "United Airlines", 0.9⟩,
   ⟨"AA", "American Airlines", 0.83⟩,
   ⟨"EK", "Emirates", 0.65⟩,
   ⟨"TK", "Turkish Airlines", 0.88⟩,
   ⟨"LX", "Swiss", 0.6⟩,
   ⟨"FR", "Ryanair", 1.1⟩]

/-- The `AIRPORTS` reference table of the source. -/
def AIRPORTS : List Airport :=
  [⟨"LHR", "London Heathrow", 1.3⟩,
   ⟨"CDG", "Paris Charles de Gaulle", 1.2⟩,
   ⟨"FRA", "Frankfurt", 1.1⟩,
   ⟨"JFK", "New York JFK", 1.4⟩,
   ⟨"LAX", "Los Angeles", 1.25⟩,
   ⟨"DXB", "Dubai", 0.9⟩,
   ⟨"SIN", "Singapore Changi", 0.8⟩,
   ⟨"IST", "Istanbul", 1.15⟩,
   ⟨"AMS", "Amsterdam Schiphol", 1.05⟩,
   ⟨"MAD", "Madrid Barajas", 1.1⟩]

/-- The `WEATHER_CONDITIONS` reference table of the source. -/
def WEATHER_CONDITIONS : List WeatherCond :=
  [⟨"Clear", 0.6, 0.7⟩,
   ⟨"Cloudy", 0.15, 0.9⟩,
   ⟨"Rain", 0.1, 1.5⟩,
   ⟨"Snow", 0.05, 2.5⟩,
   ⟨"Fog", 0.05, 2.0⟩,
   ⟨"Thunderstorm", 0.03, 3.0⟩,
   ⟨"High Winds", 0.02, 1.8⟩]

/-- The `TIME_FACTORS` dictionary with its `.get(hour, 1.0)` access: the
catch-all branch is the lookup default for keys outside the table. -/
def TIME_FACTORS_get (h : Nat) : ℚ :=
  match h with
  | 5 => 0.7 | 6 => 0.75 | 7 => 0.9
  | 8 => 1.3 | 9 => 1.4 | 10 => 1.2
  | 11 => 1.0 | 12 => 1.0 | 13 => 1.0 | 14 => 1.0
  | 15 => 1.1 | 16 => 1.3 | 17 => 1.5 | 18 => 1.4
  | 19 => 1.2 | 20 => 1.1 | 21 => 1.0 | 22 => 0.9
  | 23 => 0.8 | 0 => 0.7 | 1 => 0.6 | 2 => 0.6 | 3 => 0.6 | 4 => 0.6
  | _ => 1.0

/-- The `DAY_FACTORS` dictionary with its `.get(weekday, 1.0)` access
(0 = Monday … 6 = Sunday). -/
def DAY_FACTORS_get (d : Nat) : ℚ :=
  match d with
  | 0 => 1.0
  | 1 => 0.9
  | 2 => 0.9
  | 3 => 1.0
  | 4 => 1.3
  | 5 => 1.2
  | 6 => 1.1
  | _ => 1.0

/-- Timestamp model for `datetime.datetime`: a day index (days since an epoch
Monday) and a minute offset within that day.  A `timedelta` in minutes adds to
the offset without renormalising, which preserves every arithmetic relation
the source states between timestamps. -/
structure Dtm where
  day : ℤ
  mins : ℤ
deriving DecidableEq

/-- Python `dt.replace(hour=h, minute=m, second=0, microsecond=0)`: keep the
date, reset the time-of-day. -/
def replaceTime (t : Dtm) (h m : Nat) : Dtm :=
  ⟨t.day, 60 * (h : ℤ) + (m : ℤ)⟩

/-- Python `dt + datetime.timedelta(minutes=k)`. -/
def addMinutes (t : Dtm) (k : ℤ) : Dtm :=
  ⟨t.day, t.mins + k⟩

/-- Python `dt + datetime.timedelta(days=k)`. -/
def addDays (t : Dtm) (k : ℤ) : Dtm :=
  ⟨t.day + k, t.mins⟩

/-- Python `dt.weekday()` (0 = Monday): with days counted from an epoch
Monday this is the day index modulo 7. -/
def weekdayOf (t : Dtm) : Nat :=
  (t.day % 7).toNat

/-- Python 3 `round` on a real value: round half to even (banker's rounding),
as used by `int(round(delay))` in the source. -/
noncomputable def pyRound (x : ℝ) : ℤ :=
  if x - ⌊x⌋ < 1 / 2 then ⌊x⌋
  else if x - ⌊x⌋ = 1 / 2 then (if Even ⌊x⌋ then ⌊x⌋ else ⌊x⌋ + 1)
  else ⌊x⌋ + 1

/-- Index selection of `random.choices(population, weights=ws)` given the
uniform draw `u` (already scaled by the total weight): the bisection of the
cumulative weights, i.e. the first index whose cumulative sum exceeds `u`. -/
def weightedIndex : List ℚ → ℚ → Nat
  | [], _ => 0
  | w :: rest, u => if u < w then 0 else weightedIndex rest (u - w) + 1

/-- Source `generate_flight_number`: the airline code followed by a random
integer in `[100, 9999]`. -/
def generate_flight_number (airline_code : String) (s : RandState) : String × RandState :=
  (airline_code ++ toString (py_randint 100 9999 s).1, (py_randint 100 9999 s).2)

/-- Source `sample_from_weighted_list`: weights are read through `weight`
(`none` models a missing field, substituted by `1.0`), normalised by their
total, and one item is selected by a uniform draw.  `none` as the overall
result models the raised Python exception on degenerate input: an empty list
(`IndexError` inside `random.choices`) or an all-zero total
(`ZeroDivisionError` at normalisation). -/
def sample_from_weighted_list {α : Type} [Inhabited α] (items : List α)
    (weight : α → Option ℚ) (s : RandState) : Option (α × RandState) :=
  let weights := items.map (fun it => (weight it).getD 1.0)
  let total_weight := weights.sum
  if items.isEmpty ∨ total_weight = 0 then none
  else
    let normalized := weights.map (fun w => w / total_weight)
    some (items.getD (min (weightedIndex normalized (nextUnif s).1) (items.length - 1)) default,
      (nextUnif s).2)

/-- Source `generate_delay_minutes`: zero when cancelled, otherwise a
mixture-of-exponentials draw around `15.0 × combined_factor`. -/
noncomputable def generate_delay_minutes (airline_factor origin_factor destination_factor
    weather_factor time_factor day_factor : ℚ) (cancelled : Bool) (s : RandState) :
    ℤ × RandState :=
  if cancelled then (0, s)
  else
    let base_mean : ℝ := 15.0
    let combined_factor : ℝ :=
      (airline_factor : ℝ) *
      Real.sqrt ((origin_factor : ℝ) * (destination_factor : ℝ)) *
      (weather_factor : ℝ) *
      (time_factor : ℝ) *
      (day_factor : ℝ)
    let mean_delay := base_mean * combined_factor
    let u := (nextUnif s).1
    let s1 := (nextUnif s).2
    let ds2 :=
      if u < 0.7 then py_expovariate (1.0 / (mean_delay / 2)) s1
      else py_expovariate (1.0 / (mean_delay * 2)) s1
    (max 0 (pyRound ds2.1), ds2.2)

/-- Source `get_flight_status`: the status label from delay minutes and the
cancellation flag. -/
def get_flight_status (delay_minutes : ℤ) (cancelled : Bool) : String :=
  if cancelled then "cancelled"
  else if delay_minutes ≥ 180 then "significantly_delayed"
  else if delay_minutes ≥ 45 then "delayed"
  else if delay_minutes ≥ 15 then "slightly_delayed"
  else "on_time"

/-- The weather-multiplier dictionary of `determine_cancellation` with its
`.get(condition, 1.0)` access. -/
def weather_multiplier (condition : String) : ℚ :=
  if condition = "Clear" then 0.2
  else if condition = "Cloudy" then 0.3
  else if condition = "Rain" then 1.5
  else if condition = "Snow" then 10.0
  else if condition = "Fog" then 6.0
  else if condition = "Thunderstorm" then 15.0
  else if condition = "High Winds" then 8.0
  else 1.0

/-- Source `determine_cancellation`: Bernoulli trial with probability
`min (0.01 × weather multiplier × airline factor) 0.5`. -/
def determine_cancellation (condition : String) (airline_factor : ℚ) (s : RandState) :
    Bool × RandState :=
  let base_probability : ℚ := 0.01
  let weather_factor := weather_multiplier condition
  let cancellation_probability := base_probability * weather_factor * airline_factor
  let capped := min cancellation_probability 0.5
  (decide ((nextUnif s).1 < capped), (nextUnif s).2)

/-- One generated flight record (timestamp fields hold the `Dtm` values whose
`isoformat` strings the source stores). -/
structure FlightRecord where
  flight_number : String
  airline_code : String
  airline_name : String
  origin_code : String
  origin_name : String
  destination_code : String
  destination_name : String
  scheduled_departure : Dtm
  estimated_departure : Option Dtm
  actual_departure : Option Dtm
  scheduled_arrival : Dtm
  estimated_arrival : Option Dtm
  actual_arrival : Option Dtm
  status : String
  delay_minutes : ℤ
  cancelled : Bool
  weather_condition : String

instance : Inhabited Airline := ⟨⟨"", "", 1⟩⟩

instance : Inhabited Airport := ⟨⟨"", "", 1⟩⟩

instance : Inhabited WeatherCond := ⟨⟨"", 1, 1⟩⟩

/-- One iteration of the `for` body of `generate_flight_data`: build a single
flight record for `flight_date`, consuming randomness in exactly the source's
order.  `none` propagates a raised exception from the weighted sampler. -/
noncomputable def generate_one_flight (flight_date : Dtm) (s : RandState) :
    Option (FlightRecord × RandState) :=
  let airline := (py_choice AIRLINES default s).1
  let s1 := (py_choice AIRLINES default s).2
  let origin := (py_choice AIRPORTS default s1).1
  let s2 := (py_choice AIRPORTS default s1).2
  let possible_destinations := AIRPORTS.filter (fun a => a.code ≠ origin.code)
  let destination := (py_choice possible_destinations default s2).1
  let s3 := (py_choice possible_destinations default s2).2
  let departure_hour := (py_randint 0 23 s3).1
  let s4 := (py_randint 0 23 s3).2
  let departure_minute := (py_choice [0, 15, 30, 45] 0 s4).1
  let s5 := (py_choice [0, 15, 30, 45] 0 s4).2
  let departure_time := replaceTime flight_date departure_hour departure_minute
  let base_duration_minutes := (py_randint 60 720 s5).1
  let s6 := (py_randint 60 720 s5).2
  let scheduled_arrival := addMinutes departure_time (base_duration_minutes : ℤ)
  match sample_from_weighted_list WEATHER_CONDITIONS (fun w => some w.probability) s6 with
  | none => none
  | some (origin_weather, s7) =>
    let cancelled := (determine_cancellation origin_weather.condition airline.delay_factor s7).1
    let s8 := (determine_cancellation origin_weather.condition airline.delay_factor s7).2
    let time_factor := TIME_FACTORS_get departure_hour
    let day_factor := DAY_FACTORS_get (weekdayOf departure_time)
    let gd := generate_delay_minutes airline.delay_factor
      origin.congestion_factor destination.congestion_factor origin_weather.delay_factor
      time_factor day_factor cancelled s8
    let delay_minutes := gd.1
    let s9 := gd.2
    let estimated_departure := addMinutes departure_time delay_minutes
    let estimated_arrival := addMinutes scheduled_arrival delay_minutes
    let status := get_flight_status delay_minutes cancelled
    let flight_number := (generate_flight_number airline.code s9).1
    let s10 := (generate_flight_number airline.code s9).2
    some ({ flight_number := flight_number,
            airline_code := airline.code,
            airline_name := airline.name,
            origin_code := origin.code,
            origin_name := origin.name,
            destination_code := destination.code,
            destination_name := destination.name,
            scheduled_departure := departure_time,
            estimated_departure := if cancelled then none else some estimated_departure,
            actual_departure := none,
            scheduled_arrival := scheduled_arrival,
            estimated_arrival := if cancelled then none else some estimated_arrival,
            actual_arrival := none,
            status := status,
            delay_minutes := delay_minutes,
            cancelled := cancelled,
            weather_condition := origin_weather.condition }, s10)

/-- The `for _ in range(num_flights)` loop of `generate_flight_data`, with the
iteration count already clamped to a natural number (Python's `range` is empty
for non-positive arguments); records are appended in generation order. -/
noncomputable def gfd_loop (flight_date : Dtm) : Nat → RandState →
    Option (List FlightRecord × RandState)
  | 0, s => some ([], s)
  | n + 1, s =>
    match generate_one_flight flight_date s with
    | none => none
    | some (flight, s1) =>
      match gfd_loop flight_date n s1 with
      | none => none
      | some (rest, s2) => some (flight :: rest, s2)

/-- Source `generate_flight_data`: `num_flights` records for one date. -/
noncomputable def generate_flight_data (flight_date : Dtm) (num_flights : ℤ)
    (s : RandState) : Option (List FlightRecord × RandState) :=
  gfd_loop flight_date num_flights.toNat s

/-- The `for day in range(days)` loop of `generate_dataset`: `dayIdx` is the
current value of `day`, `k` the number of iterations left; each day's flights
are appended to the accumulated flat list. -/
noncomputable def gds_loop (start_date : Dtm) (flights_per_day : ℤ) : Nat → Nat →
    RandState → Option (List FlightRecord × RandState)
  | _, 0, s => some ([], s)
  | dayIdx, k + 1, s =>
    match generate_flight_data (addDays start_date (dayIdx : ℤ)) flights_per_day s with
    | none => none
    | some (daily_flights, s1) =>
      match gds_loop start_date flights_per_day (dayIdx + 1) k s1 with
      | none => none
      | some (rest, s2) => some (daily_flights ++ rest, s2)

/-- Source `generate_dataset`: a dataset spanning `days` consecutive days of
`flights_per_day` flights each, day-major. -/
noncomputable def generate_dataset (start_date : Dtm) (days flights_per_day : ℤ)
    (s : RandState) : Option (List FlightRecord × RandState) :=
  gds_loop start_date flights_per_day 0 days.toNat s

/-! ## Basic lemmas about the primitives -/

/-- A cancelled flight consumes no randomness in the delay model and gets
delay `0`. -/
lemma generate_delay_minutes_of_cancelled (af o d w t df : ℚ) (s : RandState) :
    generate_delay_minutes af o d w t df true s = (0, s) := rfl

/-- The delay model never returns a negative number of minutes. -/
lemma generate_delay_minutes_nonneg (af o d w t df : ℚ) (c : Bool) (s : RandState) :
    0 ≤ (generate_delay_minutes af o d w t df c s).1 := by
  cases c with
  | false =>
    simp only [generate_delay_minutes, Bool.false_eq_true, if_false]
    exact le_max_left 0 _
  | true => simp [generate_delay_minutes_of_cancelled]

/-- `py_choice` on a non-empty list returns a member of the list. -/
lemma py_choice_mem {α : Type} (l : List α) (dflt : α) (s : RandState) (h : l ≠ []) :
    (py_choice l dflt s).1 ∈ l := by
  have hlen : 0 < l.length := List.length_pos.mpr h
  have hlt : (nextNat s).1 % l.length < l.length := Nat.mod_lt _ hlen
  simp only [py_choice]
  rw [List.getD_eq_getElem?_getD, List.getElem?_eq_getElem hlt]
  simp [List.getElem_mem]

/-- The destination pre-filter is never empty: the airport table holds at
least two distinct codes, so excluding one code leaves an airport. -/
lemma airports_filter_ne_nil (c : String) :
    AIRPORTS.filter (fun a => a.code ≠ c) ≠ [] := by
  intro hnil
  have h := List.filter_eq_nil_iff.mp hnil
  have h1 := h ⟨"LHR", "London Heathrow", 1.3⟩ (by simp [AIRPORTS])
  have h2 := h ⟨"CDG", "Paris Charles de Gaulle", 1.2⟩ (by simp [AIRPORTS])
  simp only [ne_eq, decide_eq_true_eq, not_not] at h1 h2
  rw [← h1] at h2
  exact absurd h2 (by decide)

/-- Every airport surviving the destination pre-filter has a code different
from the origin's. -/
lemma mem_airports_filter_code_ne {a : Airport} {c : String}
    (h : a ∈ AIRPORTS.filter (fun a => a.code ≠ c)) : a.code ≠ c := by
  have := List.of_mem_filter h
  simpa using this

/-! ## Per-flight invariants -/

/-- Invariant bundle for one record produced by the per-flight generator:
cancellation forces zero delay and absent estimates, non-cancellation gives
estimates shifted by the delay, origin and destination differ, the scheduled
arrival is the departure plus a duration in `[60, 720]`, the scheduled
departure keeps the requested date, the delay is non-negative, and the status
is the derived one. -/
lemma generate_one_flight_inv (date : Dtm) (s : RandState) (r : FlightRecord)
    (s' : RandState) (h : generate_one_flight date s = some (r, s')) :
    (r.cancelled = true →
      r.delay_minutes = 0 ∧ r.estimated_departure = none ∧ r.estimated_arrival = none) ∧
    (r.cancelled = false →
      r.estimated_departure = some (addMinutes r.scheduled_departure r.delay_minutes) ∧
      r.estimated_arrival = some (addMinutes r.scheduled_arrival r.delay_minutes)) ∧
    r.origin_code ≠ r.destination_code ∧
    (∃ dur : ℤ, 60 ≤ dur ∧ dur ≤ 720 ∧
      r.scheduled_arrival = addMinutes r.scheduled_departure dur) ∧
    r.scheduled_departure.day = date.day ∧
    0 ≤ r.delay_minutes ∧
    r.status = get_flight_status r.delay_minutes r.cancelled := by
  simp only [generate_one_flight] at h
  split at h
  · exact Option.noConfusion h
  · rw [Option.some.injEq, Prod.mk.injEq] at h
    obtain ⟨hr, -⟩ := h
    subst hr
    refine ⟨?_, ?_, ?_, ?_, ?_, ?_, ?_⟩
    · intro hc
      simp only at hc
      simp [hc, generate_delay_minutes_of_cancelled]
    · intro hc
      simp only at hc
      simp [hc]
    · have hmem := py_choice_mem
        (AIRPORTS.filter (fun a => a.code ≠ (py_choice AIRPORTS default (py_choice AIRLINES default s).2).1.code))
        default (py_choice AIRPORTS default (py_choice AIRLINES default s).2).2
        (airports_filter_ne_nil _)
      have hne := mem_airports_filter_code_ne hmem
      exact fun hEq => hne (by simpa using hEq.symm)
    · refine ⟨_, ?_, ?_, rfl⟩
      · simp only [py_randint, nextNat]
        omega
      · simp only [py_randint, nextNat]
        omega
    · rfl
    · exact generate_delay_minutes_nonneg _ _ _ _ _ _ _ _
    · rfl

/-! ## Loop-level lemmas -/

/-- Any property guaranteed by the per-flight generator holds of every record
in a `gfd_loop` batch. -/
lemma gfd_loop_mem (P : FlightRecord → Prop) (date : Dtm)
    (hP : ∀ s r s', generate_one_flight date s = some (r, s') → P r) :
    ∀ (n : Nat) (s : RandState) (out : List FlightRecord) (s' : RandState),
      gfd_loop date n s = some (out, s') → ∀ r ∈ out, P r := by
  intro n
  induction n with
  | zero =>
    intro s out s' h r hr
    simp only [gfd_loop, Option.some.injEq, Prod.mk.injEq] at h
    obtain ⟨h1, -⟩ := h
    rw [← h1] at hr
    exact absurd hr (List.not_mem_nil r)
  | succ n ih =>
    intro s out s' h r hr
    rw [gfd_loop] at h
    split at h
    · exact Option.noConfusion h
    · rename_i f s1 h1
      split at h
      · exact Option.noConfusion h
      · rename_i rest s2 h2
        simp only [Option.some.injEq, Prod.mk.injEq] at h
        obtain ⟨hout, -⟩ := h
        rw [← hout] at hr
        rcases List.mem_cons.mp hr with hrf | hrr
        · rw [hrf]; exact hP s f s1 h1
        · exact ih s1 rest s2 h2 r hrr

/-- A successful `gfd_loop` run returns exactly as many records as requested. -/
lemma gfd_loop_length (date : Dtm) :
    ∀ (n : Nat) (s : RandState) (out : List FlightRecord) (s' : RandState),
      gfd_loop date n s = some (out, s') → out.length = n := by
  intro n
  induction n with
  | zero =>
    intro s out s' h
    simp only [gfd_loop, Option.some.injEq, Prod.mk.injEq] at h
    obtain ⟨h1, -⟩ := h
    rw [← h1]
    rfl
  | succ n ih =>
    intro s out s' h
    rw [gfd_loop] at h
    split at h
    · exact Option.noConfusion h
    · rename_i f s1 h1
      split at h
      · exact Option.noConfusion h
      · rename_i rest s2 h2
        simp only [Option.some.injEq, Prod.mk.injEq] at h
        obtain ⟨hout, -⟩ := h
        rw [← hout]
        simp [ih s1 rest s2 h2]

/-- Any property guaranteed by the per-flight generator holds of every record
returned by `generate_flight_data`. -/
lemma generate_flight_data_mem (P : FlightRecord → Prop) (date : Dtm)
    (hP : ∀ s r s', generate_one_flight date s = some (r, s') → P r)
    (n : ℤ) (s : RandState) (out : List FlightRecord) (s' : RandState)
    (h : generate_flight_data date n s = some (out, s')) : ∀ r ∈ out, P r :=
  gfd_loop_mem P date hP n.toNat s out s' h

/-- A successful `generate_flight_data` run returns `num_flights.toNat`
records. -/
lemma generate_flight_data_length (date : Dtm) (n : ℤ) (s : RandState)
    (out : List FlightRecord) (s' : RandState)
    (h : generate_flight_data date n s = some (out, s')) : out.length = n.toNat :=
  gfd_loop_length date n.toNat s out s' h

/-- Every record of a `generate_flight_data` batch carries the requested
date on its scheduled departure. -/
lemma generate_flight_data_day (date : Dtm) (n : ℤ) (s : RandState)
    (out : List FlightRecord) (s' : RandState)
    (h : generate_flight_data date n s = some (out, s')) :
    ∀ r ∈ out, r.scheduled_departure.day = date.day :=
  generate_flight_data_mem (fun r => r.scheduled_departure.day = date.day) date
    (fun s r s' hgen => (generate_one_flight_inv date s r s' hgen).2.2.2.2.1) n s out s' h

/-- Flattening a list of equal-length blocks multiplies the lengths. -/
lemma flatten_length_const {L : List (List FlightRecord)} {m : Nat}
    (h : ∀ b ∈ L, b.length = m) : L.flatten.length = L.length * m := by
  induction L with
  | nil => simp
  | cons b L ih =>
    simp only [List.flatten_cons, List.length_append, List.length_cons]
    rw [h b (List.mem_cons_self b L), ih (fun c hc => h c (List.mem_cons_of_mem b hc))]
    ring

/-- Structure of a `gds_loop` run: the flat output is the concatenation of
one block per remaining day, each block being a plain `generate_flight_data`
batch for its own date. -/
lemma gds_loop_spec (start : Dtm) (F : ℤ) :
    ∀ (k dayIdx : Nat) (s : RandState) (all : List FlightRecord) (s' : RandState),
      gds_loop start F dayIdx k s = some (all, s') →
      ∃ blocks : List (List FlightRecord),
        all = blocks.flatten ∧ blocks.length = k ∧
        ∀ d (hd : d < blocks.length),
          (blocks.get ⟨d, hd⟩).length = F.toNat ∧
          (∀ r ∈ blocks.get ⟨d, hd⟩,
            r.scheduled_departure.day = start.day + ((dayIdx : ℤ) + (d : ℤ))) ∧
          ∃ sd sd', generate_flight_data (addDays start ((dayIdx : ℤ) + (d : ℤ))) F sd
            = some (blocks.get ⟨d, hd⟩, sd') := by
  intro k
  induction k with
  | zero =>
    intro dayIdx s all s' h
    simp only [gds_loop, Option.some.injEq, Prod.mk.injEq] at h
    obtain ⟨h1, -⟩ := h
    refine ⟨[], by simp [← h1], rfl, ?_⟩
    intro d hd
    exact absurd hd (by simp)
  | succ k ih =>
    intro dayIdx s all s' h
    rw [gds_loop] at h
    split at h
    · exact Option.noConfusion h
    · rename_i daily s1 h1
      split at h
      · exact Option.noConfusion h
      · rename_i rest s2 h2
        simp only [Option.some.injEq, Prod.mk.injEq] at h
        obtain ⟨hall, -⟩ := h
        obtain ⟨blocks', hflat, hlen, hprops⟩ := ih (dayIdx + 1) s1 rest s2 h2
        refine ⟨daily :: blocks', ?_, by simp [hlen], ?_⟩
        · rw [← hall, List.flatten_cons, ← hflat]
        · intro d hd
          match d with
          | 0 =>
            refine ⟨?_, ?_, s, s1, ?_⟩
            · simpa using generate_flight_data_length _ _ _ _ _ h1
            · intro r hr
              have := generate_flight_data_day _ _ _ _ _ h1 r (by simpa using hr)
              rw [this]
              simp [addDays]
            · simpa using h1
          | d + 1 =>
            have hd' : d < blocks'.length := by
              simpa [hlen] using Nat.lt_of_succ_lt_succ (by simpa [hlen] using hd)
            have harg : ((dayIdx + 1 : Nat) : ℤ) + (d : ℤ)
                = (dayIdx : ℤ) + ((d + 1 : Nat) : ℤ) := by push_cast; ring
            obtain ⟨hl, hdays, sd, sd', hgen⟩ := hprops d hd'
            rw [harg] at hdays hgen
            exact ⟨by simpa using hl, by simpa using hdays, sd, sd', by simpa using hgen⟩

/-! ## A concrete run (used to instantiate the theorems below) -/

/-- All-zero draw streams: a fully explicit generator state. -/
def st0 : RandState := ⟨fun _ => 0, fun _ => 0, fun _ => 0, 0, 0, 0⟩

/-- A concrete date (an epoch Monday). -/
def d0 : Dtm := ⟨0, 0⟩

/-- The generator state left behind by one flight generated from `st0`:
seven raw draws and two uniform draws consumed (the flight is cancelled, so
the delay model consumes nothing). -/
def st7 : RandState := ⟨fun _ => 0, fun _ => 0, fun _ => 0, 7, 2, 0⟩

/-- The flight record generated from `d0` and `st0`: a cancelled BA flight
LHR → CDG under Clear weather. -/
def rec0 : FlightRecord :=
  { flight_number := "BA100",
    airline_code := "BA",
    airline_name := "British Airways",
    origin_code := "LHR",
    origin_name := "London Heathrow",
    destination_code := "CDG",
    destination_name := "Paris Charles de Gaulle",
    scheduled_departure := ⟨0, 0⟩,
    estimated_departure := none,
    actual_departure := none,
    scheduled_arrival := ⟨0, 60⟩,
    estimated_arrival := none,
    actual_arrival := none,
    status := "cancelled",
    delay_minutes := 0,
    cancelled := true,
    weather_condition := "Clear" }

/-- Concrete evaluation of one flight generation. -/
lemma genOne_eval : generate_one_flight d0 st0 = some (rec0, st7) := by
  norm_num [generate_one_flight, py_choice, py_randint, nextNat, nextUnif, st0, d0,
    AIRLINES, AIRPORTS, WEATHER_CONDITIONS, sample_from_weighted_list, weightedIndex,
    determine_cancellation, weather_multiplier, generate_flight_number,
    generate_delay_minutes, get_flight_status, replaceTime, addMinutes, weekdayOf,
    TIME_FACTORS_get, DAY_FACTORS_get, rec0, st7, min_def]
  exact ⟨by decide, by decide, by decide⟩

/-- Concrete evaluation of a one-flight batch. -/
lemma gfd_one_eval : generate_flight_data d0 1 st0 = some ([rec0], st7) := by
  simp [generate_flight_data, gfd_loop, genOne_eval]

/-- Concrete evaluation of a one-day, one-flight dataset. -/
lemma gds_one_eval : generate_dataset d0 1 1 st0 = some ([rec0], st7) := by
  have h : addDays d0 (0 : ℤ) = d0 := by simp [addDays, d0]
  simp [generate_dataset, gds_loop, h, gfd_one_eval]

/-! ## Claim theorems -/

/-- C3: `get_flight_status` is a pure function of `(delay_minutes, cancelled)`
evaluated in priority order — `"cancelled"` when cancelled, else
`"significantly_delayed"` for delay ≥ 180, else `"delayed"` for delay ≥ 45,
else `"slightly_delayed"` for delay ≥ 15, else `"on_time"` — and for every
input the result is exactly one of those five labels. -/
theorem get_flight_status_spec (dm : ℤ) (c : Bool) :
    get_flight_status dm c ∈
      ["cancelled", "significantly_delayed", "delayed", "slightly_delayed", "on_time"] ∧
    (c = true → get_flight_status dm c = "cancelled") ∧
    (c = false → 180 ≤ dm → get_flight_status dm c = "significantly_delayed") ∧
    (c = false → 45 ≤ dm → dm < 180 → get_flight_status dm c = "delayed") ∧
    (c = false → 15 ≤ dm → dm < 45 → get_flight_status dm c = "slightly_delayed") ∧
    (c = false → dm < 15 → get_flight_status dm c = "on_time") := by
  cases c with
  | true => simp [get_flight_status]
  | false =>
    refine ⟨?_, by simp, ?_, ?_, ?_, ?_⟩
    · simp only [get_flight_status, Bool.false_eq_true, if_false]
      split_ifs <;> simp
    · intro _ h
      simp [get_flight_status, h]
    · intro _ h1 h2
      rw [get_flight_status]
      rw [if_neg (by simp), if_neg (by omega), if_pos (by omega)]
    · intro _ h1 h2
      rw [get_flight_status]
      rw [if_neg (by simp), if_neg (by omega), if_neg (by omega), if_pos (by omega)]
    · intro _ h
      rw [get_flight_status]
      rw [if_neg (by simp), if_neg (by omega), if_neg (by omega), if_neg (by omega)]

theorem get_flight_status_spec_witness :
    get_flight_status 200 false = "significantly_delayed" ∧
    get_flight_status 0 true = "cancelled" :=
  ⟨(get_flight_status_spec 200 false).2.2.1 rfl (by norm_num),
   (get_flight_status_spec 0 true).2.1 rfl⟩

/-- C4: in every record produced by `generate_flight_data`, cancellation
forces zero delay and absent estimated times, and non-cancellation forces the
estimated departure/arrival to be present and equal to the scheduled times
shifted by the delay. -/
theorem generate_flight_data_cancellation_fields (date : Dtm) (n : ℤ) (s : RandState)
    (out : List FlightRecord) (s' : RandState)
    (h : generate_flight_data date n s = some (out, s')) :
    ∀ r ∈ out,
      (r.cancelled = true →
        r.delay_minutes = 0 ∧ r.estimated_departure = none ∧ r.estimated_arrival = none) ∧
      (r.cancelled = false →
        r.estimated_departure = some (addMinutes r.scheduled_departure r.delay_minutes) ∧
        r.estimated_arrival = some (addMinutes r.scheduled_arrival r.delay_minutes)) :=
  generate_flight_data_mem _ date
    (fun s r s' hg =>
      ⟨(generate_one_flight_inv date s r s' hg).1,
       (generate_one_flight_inv date s r s' hg).2.1⟩) n s out s' h

theorem generate_flight_data_cancellation_fields_witness :
    (rec0.cancelled = true →
      rec0.delay_minutes = 0 ∧ rec0.estimated_departure = none ∧
        rec0.estimated_arrival = none) ∧
    (rec0.cancelled = false →
      rec0.estimated_departure = some (addMinutes rec0.scheduled_departure rec0.delay_minutes) ∧
      rec0.estimated_arrival = some (addMinutes rec0.scheduled_arrival rec0.delay_minutes)) :=
  generate_flight_data_cancellation_fields d0 1 st0 [rec0] st7 gfd_one_eval rec0
    (List.mem_singleton.mpr rfl)

/-- C5: every record produced by `generate_flight_data` has an origin code
different from its destination code (the destination is drawn from the
airport list pre-filtered to exclude the origin's code). -/
theorem generate_flight_data_origin_ne_destination (date : Dtm) (n : ℤ) (s : RandState)
    (out : List FlightRecord) (s' : RandState)
    (h : generate_flight_data date n s = some (out, s')) :
    ∀ r ∈ out, r.origin_code ≠ r.destination_code :=
  generate_flight_data_mem _ date
    (fun s r s' hg => (generate_one_flight_inv date s r s' hg).2.2.1) n s out s' h

theorem generate_flight_data_origin_ne_destination_witness :
    rec0.origin_code ≠ rec0.destination_code :=
  generate_flight_data_origin_ne_destination d0 1 st0 [rec0] st7 gfd_one_eval rec0
    (List.mem_singleton.mpr rfl)

/-- C7: every record produced by `generate_flight_data` has its scheduled
arrival equal to the scheduled departure plus a single fixed flight duration
lying in `[60, 720]` minutes. -/
theorem generate_flight_data_arrival_duration (date : Dtm) (n : ℤ) (s : RandState)
    (out : List FlightRecord) (s' : RandState)
    (h : generate_flight_data date n s = some (out, s')) :
    ∀ r ∈ out, ∃ dur : ℤ, 60 ≤ dur ∧ dur ≤ 720 ∧
      r.scheduled_arrival = addMinutes r.scheduled_departure dur :=
  generate_flight_data_mem _ date
    (fun s r s' hg => (generate_one_flight_inv date s r s' hg).2.2.2.1) n s out s' h

theorem generate_flight_data_arrival_duration_witness :
    ∃ dur : ℤ, 60 ≤ dur ∧ dur ≤ 720 ∧
      rec0.scheduled_arrival = addMinutes rec0.scheduled_departure dur :=
  generate_flight_data_arrival_duration d0 1 st0 [rec0] st7 gfd_one_eval rec0
    (List.mem_singleton.mpr rfl)

/-- C9: generation is deterministic conditional on explicit seeding — two
runs of `generate_flight_data` on the same date and count from equal
generator states produce identical outputs. -/
theorem generate_flight_data_deterministic (date : Dtm) (n : ℤ) (s₁ s₂ : RandState)
    (h : s₁ = s₂) :
    generate_flight_data date n s₁ = generate_flight_data date n s₂ := by
  rw [h]

theorem generate_flight_data_deterministic_witness :
    generate_flight_data d0 1 st0 = generate_flight_data d0 1 st0 :=
  generate_flight_data_deterministic d0 1 st0 st0 rfl

/-- C10: non-positive counts give empty output without consuming randomness
or failing — `generate_flight_data` with `num_flights ≤ 0` and
`generate_dataset` with `days ≤ 0` both return the empty list and leave the
generator state untouched. -/
theorem generate_nonpositive_returns_empty (date start : Dtm) (n days fpd : ℤ)
    (s : RandState) (hn : n ≤ 0) (hdays : days ≤ 0) :
    generate_flight_data date n s = some ([], s) ∧
    generate_dataset start days fpd s = some ([], s) := by
  have h1 : n.toNat = 0 := Int.toNat_of_nonpos hn
  have h2 : days.toNat = 0 := Int.toNat_of_nonpos hdays
  constructor
  · rw [generate_flight_data, h1]
    rfl
  · rw [generate_dataset, h2]
    rfl

theorem generate_nonpositive_returns_empty_witness :
    generate_flight_data d0 (-2) st0 = some ([], st0) ∧
    generate_dataset d0 (-3) 5 st0 = some ([], st0) :=
  generate_nonpositive_returns_empty d0 d0 (-2) (-3) 5 st0 (by norm_num) (by norm_num)

/-- C2: `determine_cancellation` computes `0.01 ×` weather multiplier
(Clear 0.2, Cloudy 0.3, Rain 1.5, Snow 10.0, Fog 6.0, Thunderstorm 15.0,
High Winds 8.0, default 1.0 otherwise) `×` airline delay factor, clamps the
probability at 0.5, and cancels exactly when the uniform draw is below the
clamped probability; Thunderstorm with factor 1.0 gives 0.15 unclamped, and
Snow with factor 10.0 gives 1.0 which clamps to 0.5. -/
theorem determine_cancellation_spec (condition : String) (airline_factor : ℚ)
    (s : RandState) :
    ((determine_cancellation condition airline_factor s).1 = true ↔
      s.unifs s.uIdx < min (0.01 * weather_multiplier condition * airline_factor) 0.5) ∧
    (determine_cancellation condition airline_factor s).2 =
      ⟨s.nats, s.unifs, s.exps, s.nIdx, s.uIdx + 1, s.eIdx⟩ ∧
    weather_multiplier "Clear" = 0.2 ∧
    weather_multiplier "Cloudy" = 0.3 ∧
    weather_multiplier "Rain" = 1.5 ∧
    weather_multiplier "Snow" = 10.0 ∧
    weather_multiplier "Fog" = 6.0 ∧
    weather_multiplier "Thunderstorm" = 15.0 ∧
    weather_multiplier "High Winds" = 8.0 ∧
    (condition ∉ ["Clear", "Cloudy", "Rain", "Snow", "Fog", "Thunderstorm", "High Winds"] →
      weather_multiplier condition = 1.0) ∧
    (0.01 : ℚ) * weather_multiplier "Thunderstorm" * 1.0 = 0.15 ∧
    min ((0.01 : ℚ) * weather_multiplier "Thunderstorm" * 1.0) 0.5 = 0.15 ∧
    (0.01 : ℚ) * weather_multiplier "Snow" * 10.0 = 1.0 ∧
    min ((0.01 : ℚ) * weather_multiplier "Snow" * 10.0) 0.5 = 0.5 := by
  refine ⟨?_, rfl, ?wm1, ?wm2, ?wm3, ?wm4, ?wm5, ?wm6, ?wm7, ?_, ?v1, ?v2, ?v3, ?v4⟩
  case wm1 => simp +decide [weather_multiplier]
  case wm2 => simp +decide [weather_multiplier]
  case wm3 => simp +decide [weather_multiplier]
  case wm4 => simp +decide [weather_multiplier]
  case wm5 => simp +decide [weather_multiplier]
  case wm6 => simp +decide [weather_multiplier]
  case wm7 => simp +decide [weather_multiplier]
  case v1 =>
    simp +decide [weather_multiplier]
    norm_num
  case v2 =>
    simp +decide [weather_multiplier, min_def]
    norm_num
  case v3 =>
    simp +decide [weather_multiplier]
    norm_num
  case v4 =>
    simp +decide [weather_multiplier, min_def]
    norm_num
  · simp [determine_cancellation, nextUnif]
  · intro hmem
    simp only [List.mem_cons, List.not_mem_nil, or_false, not_or] at hmem
    obtain ⟨h1, h2, h3, h4, h5, h6, h7⟩ := hmem
    simp [weather_multiplier, h1, h2, h3, h4, h5, h6, h7]

theorem determine_cancellation_spec_witness :
    weather_multiplier "Hail" = 1.0 ∧
    ((determine_cancellation "Snow" 10.0 st0).1 = true ↔
      st0.unifs st0.uIdx < min (0.01 * weather_multiplier "Snow" * 10.0) 0.5) :=
  ⟨(determine_cancellation_spec "Hail" 1.0 st0).2.2.2.2.2.2.2.2.2.1 (by decide),
   (determine_cancellation_spec "Snow" 10.0 st0).1⟩

/-- C8: `sample_from_weighted_list` substitutes weight 1.0 for a missing
weight field, and on degenerate input — an empty list, or all weights zero —
it propagates a divide-by-zero-class failure (modelled by `none`) instead of
returning a value. -/
theorem sample_from_weighted_list_spec {α : Type} [Inhabited α] (items : List α)
    (weight : α → Option ℚ) (s : RandState) :
    sample_from_weighted_list items weight s =
      sample_from_weighted_list items (fun a => some ((weight a).getD 1.0)) s ∧
    sample_from_weighted_list ([] : List α) weight s = none ∧
    ((∀ a ∈ items, (weight a).getD 1.0 = 0) →
      sample_from_weighted_list items weight s = none) := by
  refine ⟨?_, ?_, ?_⟩
  · simp only [sample_from_weighted_list, Option.getD_some]
  · simp [sample_from_weighted_list]
  · intro hz
    have hsum : (items.map (fun it => (weight it).getD 1.0)).sum = 0 := by
      apply List.sum_eq_zero
      intro x hx
      obtain ⟨a, ha, rfl⟩ := List.mem_map.mp hx
      exact hz a ha
    simp [sample_from_weighted_list, hsum]

theorem sample_from_weighted_list_spec_witness :
    sample_from_weighted_list [(3 : Nat), 4] (fun _ => some 0) st0 = none ∧
    sample_from_weighted_list ([] : List Nat) (fun _ => some 0) st0 = none :=
  ⟨(sample_from_weighted_list_spec [(3 : Nat), 4] (fun _ => some 0) st0).2.2
      (fun _ _ => rfl),
   (sample_from_weighted_list_spec [(3 : Nat), 4] (fun _ => some 0) st0).2.1⟩

/-- C1: for a non-cancelled flight, `generate_delay_minutes` forms
`combined_factor = airline × sqrt(origin × destination) × weather × time × day`,
sets `mean_delay = 15.0 × combined_factor`, draws an exponential with mean
`mean_delay / 2` when the uniform draw is below 0.7 and mean `mean_delay × 2`
otherwise (an exponential of mean `m` being the standard sample scaled by
`m`), and returns `max 0 (round draw)`, a non-negative integer. -/
theorem generate_delay_minutes_spec (af o d w t df : ℚ) (s : RandState) :
    generate_delay_minutes af o d w t df false s =
      (max 0 (pyRound
        (if s.unifs s.uIdx < 0.7 then
          (s.exps s.eIdx : ℝ) *
            (15.0 * ((af : ℝ) * Real.sqrt ((o : ℝ) * (d : ℝ)) * (w : ℝ) * (t : ℝ) * (df : ℝ)) / 2)
        else
          (s.exps s.eIdx : ℝ) *
            (15.0 * ((af : ℝ) * Real.sqrt ((o : ℝ) * (d : ℝ)) * (w : ℝ) * (t : ℝ) * (df : ℝ)) * 2))),
       ⟨s.nats, s.unifs, s.exps, s.nIdx, s.uIdx + 1, s.eIdx + 1⟩) ∧
    0 ≤ (generate_delay_minutes af o d w t df false s).1 := by
  refine ⟨?_, generate_delay_minutes_nonneg af o d w t df false s⟩
  simp only [generate_delay_minutes, Bool.false_eq_true, if_false, py_expovariate,
    nextUnif, nextExp]
  split_ifs with h
  all_goals
    dsimp only
    congr 1
    congr 1
    congr 1
    rw [div_div_eq_mul_div]
    ring

/-- C6: `generate_dataset` with `days = D ≥ 0` and `flights_per_day = F ≥ 0`
returns exactly `D × F` records as one flat day-major sequence: it is the
concatenation of `D` blocks of `F` records, block `d` carrying scheduled
dates `start + d` days and being, verbatim and in generation order, the
output of a single `generate_flight_data` call for its own day. -/
theorem generate_dataset_day_major (start : Dtm) (D F : ℤ) (_hD : 0 ≤ D) (_hF : 0 ≤ F)
    (s : RandState) (all : List FlightRecord) (s' : RandState)
    (h : generate_dataset start D F s = some (all, s')) :
    all.length = D.toNat * F.toNat ∧
    ∃ blocks : List (List FlightRecord),
      all = blocks.flatten ∧ blocks.length = D.toNat ∧
      ∀ d (hd : d < blocks.length),
        (blocks.get ⟨d, hd⟩).length = F.toNat ∧
        (∀ r ∈ blocks.get ⟨d, hd⟩, r.scheduled_departure.day = start.day + (d : ℤ)) ∧
        ∃ sd sd', generate_flight_data (addDays start (d : ℤ)) F sd
          = some (blocks.get ⟨d, hd⟩, sd') := by
  rw [generate_dataset] at h
  obtain ⟨blocks, hflat, hlen, hprops⟩ := gds_loop_spec start F D.toNat 0 s all s' h
  simp only [Nat.cast_zero, zero_add] at hprops
  have hblen : ∀ b ∈ blocks, b.length = F.toNat := by
    intro b hb
    obtain ⟨i, hi⟩ := List.mem_iff_get.mp hb
    rw [← hi]
    exact (hprops i.1 i.2).1
  refine ⟨?_, blocks, hflat, hlen,
    fun d hd => ⟨(hprops d hd).1, (hprops d hd).2.1, (hprops d hd).2.2⟩⟩
  rw [hflat, flatten_length_const hblen, hlen]

theorem generate_dataset_day_major_witness :
    ([rec0] : List FlightRecord).length = (1 : ℤ).toNat * (1 : ℤ).toNat ∧
    ∃ blocks : List (List FlightRecord),
      [rec0] = blocks.flatten ∧ blocks.length = (1 : ℤ).toNat ∧
      ∀ d (hd : d < blocks.length),
        (blocks.get ⟨d, hd⟩).length = (1 : ℤ).toNat ∧
        (∀ r ∈ blocks.get ⟨d, hd⟩, r.scheduled_departure.day = d0.day + (d : ℤ)) ∧
        ∃ sd sd', generate_flight_data (addDays d0 (d : ℤ)) 1 sd
          = some (blocks.get ⟨d, hd⟩, sd') :=
  generate_dataset_day_major d0 1 1 (by norm_num) (by norm_num) st0 [rec0] st7 gds_one_eval
